import Mathlib

/-!
Verification of the client-side conversational streaming session engine
(`packages/react/src/use-chat.ts`).

The `useChat` hook is embedded shallowly: the session state (messages, status,
error, stream data, input, abort controller, error-callback invocations) is an
explicit record, and each public operation (`triggerRequest`, `append`,
`reload`, `setMessages`, `handleSubmit`, `addToolResult`) is a pure function on
that record.  The transport (`callChatApi`) is modelled as an oracle that maps
the submitted message list to a stream of update events followed by an outcome
(success or a thrown value); the recursive auto-continuation of
`triggerRequest` is made total with explicit fuel.  Helper functions that the
hook imports from the UI utilities package (whose source is not part of this
tree) are modelled from the specification and marked as such.
-/

namespace UseChat

/-- Role of a chat message, as in the spec data model (section 3). -/
inductive Role
  | user
  | assistant
  | system
  | tool
deriving DecidableEq, Repr

/-- State of a tool invocation.  The constructor `partCall` models the wire
state spelled "partial-call" (arguments still streaming), `call` models
"call" (arguments complete), `result` models "result". -/
inductive ToolInvocationState
  | partCall
  | call
  | result
deriving DecidableEq, Repr

/-- A record of a backend-requested function call, its arguments, and (once
available) its result.  Arguments and results are opaque JSON, kept as
strings.  `step` records which auto-continuation step produced the
invocation. -/
structure ToolInvocation where
  toolCallId : String
  toolName : String
  args : String
  state : ToolInvocationState
  step : Option Nat
  result : Option String
deriving DecidableEq, Repr

/-- A typed fragment of a message: text, tool invocation, or data
(spec section 3). -/
inductive MessagePart
  | text (text : String)
  | toolInvocationPart (toolInvocation : ToolInvocation)
  | dataPart (value : String)
deriving DecidableEq, Repr

/-- A chat message.  `id` and `createdAt` are optional because `append` and
`handleSubmit` fill them in when absent; `parts` is optional because the
engine derives it from the legacy fields when absent. -/
structure Message where
  id : Option String
  createdAt : Option Nat
  role : Role
  content : String
  parts : Option (List MessagePart)
  toolInvocations : Option (List ToolInvocation)
deriving DecidableEq, Repr

/-- Modelled from the spec: `getMessageParts` from the UI utilities package
(imported by `use-chat.ts`, source not in this tree).  Section 3: parts are
"derived from legacy fields if absent" — tool invocations become
tool-invocation parts and nonempty content becomes a text part. -/
def getMessageParts (message : Message) : List MessagePart :=
  match message.parts with
  | some parts => parts
  | none =>
      (message.toolInvocations.getD []).map MessagePart.toolInvocationPart
        ++ (if message.content == "" then [] else [MessagePart.text message.content])

/-- Modelled from the spec: `fillMessageParts` from the UI utilities package
(source not in this tree).  Section 3 invariant: "every message exposed to
callers has `parts` populated (derived from legacy fields if absent)". -/
def fillMessageParts (messages : List Message) : List Message :=
  messages.map (fun m => { m with parts := some (getMessageParts m) })

/-- Modelled from the spec: `extractMaxToolInvocationStep` from the UI
utilities package (source not in this tree).  Section 4.2 step 1: "the highest
tool-invocation step present in the last message".  Absent `toolInvocations`
yields `none`. -/
def extractMaxToolInvocationStep : Option (List ToolInvocation) → Option Nat
  | none => none
  | some toolInvocations =>
      some (toolInvocations.foldl (fun acc ti => Nat.max acc (ti.step.getD 0)) 0)

/-- Modelled from the spec: `isAssistantMessageWithCompletedToolCalls` from
the UI utilities package (source not in this tree).  Sections 2 and 4.3: the
message is an assistant message that contains tool invocations and "every
tool invocation ... is now resolved". -/
def isAssistantMessageWithCompletedToolCalls (message : Message) : Bool :=
  message.role == Role.assistant
    && !(message.toolInvocations.getD []).isEmpty
    && (message.toolInvocations.getD []).all
        (fun ti => ti.state == ToolInvocationState.result)

/-- Modelled from the spec: `shouldResubmitMessages` from the UI utilities
package (source not in this tree).  Section 4.2 step 8: resubmit when the last
message is an assistant message whose tool invocations are all resolved, the
message count or tool-step count has strictly advanced since the cycle began,
and the number of steps taken so far (the last tool step plus one, steps being
zero-indexed) is still below the configured step bound — so the default bound
of 1 yields no auto-continuation. -/
def shouldResubmitMessages (originalMaxToolInvocationStep : Option Nat)
    (originalMessageCount : Nat) (maxSteps : Nat) (messages : List Message) : Bool :=
  match messages.getLast? with
  | none => false
  | some lastMessage =>
      isAssistantMessageWithCompletedToolCalls lastMessage
        && (decide (originalMessageCount < messages.length)
              || decide (extractMaxToolInvocationStep lastMessage.toolInvocations
                    ≠ originalMaxToolInvocationStep))
        && decide ((extractMaxToolInvocationStep lastMessage.toolInvocations).getD 0 + 1
              < maxSteps)

/-- Modelled from the spec: `updateToolCallResult` from the UI utilities
package (source not in this tree).  Section 4.3: "Finds the invocation with
matching id in the last message, sets its `state` to `result` and attaches
`result`; writes the updated message back (by shallow-cloning the mutated
message ...)". -/
def updateToolCallResult (messages : List Message) (toolCallId : String)
    (toolResult : String) : List Message :=
  match messages.getLast? with
  | none => messages
  | some lastMessage =>
      messages.dropLast ++
        [{ lastMessage with
            toolInvocations := lastMessage.toolInvocations.map (fun tis =>
              tis.map (fun ti =>
                if ti.toolCallId == toolCallId then
                  { ti with state := ToolInvocationState.result
                            result := some toolResult }
                else ti)) }]

/-- Session status, exactly the four values of the hook
(`use-chat.ts` lines 286-288). -/
inductive ChatStatus
  | ready
  | submitted
  | streaming
  | error
deriving DecidableEq, Repr

/-- A value thrown by the transport call.  `name` models the JavaScript
`err.name` property (the empty string models `undefined`, e.g. for a thrown
plain value); `isErrorInstance` models `err instanceof Error`. -/
structure Thrown where
  name : String
  isErrorInstance : Bool
deriving DecidableEq, Repr

/-- The value an invocation of `triggerRequest` (and hence `append` and
`reload`) resolves with: a string, JavaScript `null`, or `undefined`. -/
inductive RetVal
  | strVal (s : String)
  | nullVal
  | undefVal
deriving DecidableEq, Repr

/-- One `onUpdate` callback payload delivered by the transport while
streaming (`use-chat.ts` lines 406-428): the current merged message, the
cumulative structured data of this response, and whether the message replaces
the last submitted message or is appended after it. -/
structure StreamEvent where
  message : Message
  data : List String
  replaceLastMessage : Bool
deriving DecidableEq, Repr

/-- How one transport call ends after its stream events: normal completion,
or a rejection carrying a thrown value (an `AbortError`-named value models
cancellation). -/
inductive CallOutcome
  | success
  | failure (err : Thrown)
deriving DecidableEq, Repr

/-- Everything one transport call produces: the ordered update events
followed by the outcome. -/
structure BackendResponse where
  events : List StreamEvent
  outcome : CallOutcome
deriving DecidableEq, Repr

/-- Modelled from the spec: the transport behind `callChatApi` (imported by
`use-chat.ts`, source not in this tree) as an oracle from the submitted
message list to the events and outcome of the call (spec sections 4.1, 4.2
step 5). -/
def Backend : Type := List Message → BackendResponse

/-- Hook configuration relevant to the verified claims: the step bound
`maxSteps` (default 1), the rollback policy `keepLastMessageOnError`
(default true), and whether an `onError` callback was supplied. -/
structure Config where
  maxSteps : Nat
  keepLastMessageOnError : Bool
  hasOnError : Bool
deriving DecidableEq, Repr

/-- The observable session state owned by the hook: the published message
list (also the `messagesRef` mirror), the status, the last error, the
side-channel stream data, the input draft, whether an abort controller is
installed, and how many times the caller's `onError` callback has been
invoked (instrumentation for the error-handling claims). -/
structure ChatState where
  messages : List Message
  status : ChatStatus
  error : Option Thrown
  streamData : List String
  input : String
  abortActive : Bool
  onErrorCalls : Nat
deriving DecidableEq, Repr

/-- The `onUpdate` handler passed to the transport (`use-chat.ts` lines
406-428): advance status to `streaming`, publish the submitted messages
(minus the last one when `replaceLastMessage`) followed by the event's
message, and append the response's structured data to the data captured
before the call. -/
def onUpdate (chatMessages : List Message) (existingData : List String)
    (st : ChatState) (e : StreamEvent) : ChatState :=
  { st with
      status := ChatStatus.streaming
      messages :=
        (if e.replaceLastMessage then chatMessages.dropLast else chatMessages)
          ++ [e.message]
      streamData := if e.data.isEmpty then st.streamData else existingData ++ e.data }

/-- One request cycle of `triggerRequest` (`use-chat.ts` lines 315-454),
without the trailing auto-continuation check: set status `submitted` and
clear the error, normalize the submitted messages with `fillMessageParts`,
install a fresh abort controller, optimistically publish the submitted
messages, run the transport call, and classify the outcome.  On success the
controller is cleared and status becomes `ready`.  On a thrown value named
`AbortError` the controller is cleared and status becomes `ready` (the cycle
will return `null` early).  On any other thrown value the pre-request
snapshot is restored when the rollback policy demands it, the error is
recorded, status becomes `error`, and the `onError` callback is invoked when
it is configured and the thrown value is an `Error` instance.  The returned
flag is true when the cycle ended in the early-return cancellation branch. -/
def runOneCycle (B : Backend) (cfg : Config) (st : ChatState)
    (reqMessages : List Message) : ChatState × Bool :=
  let st1 : ChatState := { st with status := ChatStatus.submitted, error := none }
  let chatMessages := fillMessageParts reqMessages
  let st2 : ChatState := { st1 with abortActive := true }
  let previousMessages := st.messages
  let st3 : ChatState := { st2 with messages := chatMessages }
  let existingData := st3.streamData
  let resp := B chatMessages
  let st4 := resp.events.foldl (onUpdate chatMessages existingData) st3
  match resp.outcome with
  | CallOutcome.success =>
      ({ st4 with abortActive := false, status := ChatStatus.ready }, false)
  | CallOutcome.failure err =>
      if err.name == "AbortError" then
        ({ st4 with abortActive := false, status := ChatStatus.ready }, true)
      else
        let st5 := if cfg.keepLastMessageOnError then st4
                   else { st4 with messages := previousMessages }
        ({ st5 with
            status := ChatStatus.error
            error := some err
            onErrorCalls := st5.onErrorCalls +
              (if cfg.hasOnError && err.isErrorInstance then 1 else 0) }, false)

/-- The full `triggerRequest` (`use-chat.ts` lines 315-468) made total with
explicit fuel: record the submitted message count and the highest tool step
of the last submitted message, run one cycle, and afterwards — unless the
cycle returned `null` early on cancellation — resubmit the current message
list when `shouldResubmitMessages` says so.  Returns the final state, the
value the promise resolves with, and the number of request cycles run. -/
def triggerRequestFuel (B : Backend) (cfg : Config) :
    Nat → ChatState → List Message → ChatState × RetVal × Nat
  | 0, st, _ => (st, RetVal.undefVal, 0)
  | fuel + 1, st, reqMessages =>
      let chatMessages := fillMessageParts reqMessages
      let messageCount := chatMessages.length
      let maxStep := extractMaxToolInvocationStep
        ((chatMessages.getLast?).bind Message.toolInvocations)
      let c := runOneCycle B cfg st reqMessages
      if c.2 then (c.1, RetVal.nullVal, 1)
      else if shouldResubmitMessages maxStep messageCount cfg.maxSteps c.1.messages then
        let r := triggerRequestFuel B cfg fuel c.1 c.1.messages
        (r.1, RetVal.undefVal, r.2.2 + 1)
      else (c.1, RetVal.undefVal, 1)

/-- The session state right after the hook is constructed: the initial
messages normalized by `fillMessageParts` (`use-chat.ts` lines 256-267),
status defaulting to `ready` and error to `undefined` (lines 286-292), empty
stream data, the initial input, no abort controller. -/
def initialState (initialMessages : List Message) (initialInput : String) : ChatState :=
  { messages := fillMessageParts initialMessages
    status := ChatStatus.ready
    error := none
    streamData := []
    input := initialInput
    abortActive := false
    onErrorCalls := 0 }

/-- The deprecated `isLoading` flag returned by the hook (`use-chat.ts` line
735): status is `submitted` or `streaming`. -/
def isLoading (st : ChatState) : Bool :=
  st.status == ChatStatus.submitted || st.status == ChatStatus.streaming

/-- The message list `append` submits (`use-chat.ts` lines 516-523): the
current history plus the new message with generated id and timestamp when
absent and `parts` derived by `getMessageParts`. -/
def appendMessage (currentMessages : List Message) (message : Message)
    (genId : String) (now : Nat) : List Message :=
  currentMessages ++
    [{ message with
        id := some (message.id.getD genId)
        createdAt := some (message.createdAt.getD now)
        parts := some (getMessageParts message) }]

/-- The `append` operation (`use-chat.ts` lines 500-529): build the extended
history and hand it to `triggerRequest`, resolving with that call's value. -/
def append (B : Backend) (cfg : Config) (st : ChatState) (message : Message)
    (genId : String) (now : Nat) (fuel : Nat) : ChatState × RetVal × Nat :=
  triggerRequestFuel B cfg fuel st (appendMessage st.messages message genId now)

/-- The `reload` operation (`use-chat.ts` lines 535-554): `null` on empty
history; otherwise resubmit the history, dropping the last message when it
is an assistant message. -/
def reload (B : Backend) (cfg : Config) (st : ChatState) (fuel : Nat) :
    ChatState × RetVal × Nat :=
  match st.messages.getLast? with
  | none => (st, RetVal.nullVal, 0)
  | some lastMessage =>
      triggerRequestFuel B cfg fuel st
        (if lastMessage.role == Role.assistant then st.messages.dropLast
         else st.messages)

/-- The `setMessages` operation (`use-chat.ts` lines 570-581): overwrite the
history with the parts-normalized list (published immediately and mirrored
into `messagesRef`). -/
def setMessages (st : ChatState) (messages : List Message) : ChatState :=
  { st with messages := fillMessageParts messages }

/-- The `handleSubmit` operation (`use-chat.ts` lines 611-656): a no-op when
the input is empty and empty submission is not allowed; otherwise build a
user message from the current input, start `triggerRequest` without awaiting
it, and clear the input synchronously.  Since `triggerRequest` never reads
or writes the input draft, sequencing the clear before the request run is
observationally equal to the source's ordering.  Returns the final state and
the number of request cycles run. -/
def handleSubmit (B : Backend) (cfg : Config) (st : ChatState)
    (allowEmptySubmit : Bool) (genId : String) (now : Nat) (fuel : Nat) :
    ChatState × Nat :=
  if st.input == "" && !allowEmptySubmit then (st, 0)
  else
    let messages := st.messages ++
      [{ id := some genId
         createdAt := some now
         role := Role.user
         content := st.input
         parts := some [MessagePart.text st.input]
         toolInvocations := none }]
    let cleared : ChatState := { st with input := "" }
    let r := triggerRequestFuel B cfg fuel cleared messages
    (r.1, r.2.2)

/-- The `addToolResult` operation (`use-chat.ts` lines 666-698): record the
tool result in the last message and publish the updated list; when a request
is in flight (status `submitted` or `streaming`) do nothing further;
otherwise, when the last message is an assistant message with all tool
invocations resolved, trigger one new request cycle with the updated list.
The second component is the message list of the request that was triggered,
if any. -/
def addToolResult (st : ChatState) (toolCallId : String) (result : String) :
    ChatState × Option (List Message) :=
  let currentMessages := updateToolCallResult st.messages toolCallId result
  let st1 : ChatState := { st with messages := currentMessages }
  if st.status == ChatStatus.submitted || st.status == ChatStatus.streaming then
    (st1, none)
  else
    match currentMessages.getLast? with
    | none => (st1, none)
    | some lastMessage =>
        if isAssistantMessageWithCompletedToolCalls lastMessage then
          (st1, some currentMessages)
        else (st1, none)

/-- Highest tool-invocation step of the last message of a list, as computed
at the start of a request cycle. -/
def lastInvocationStep (messages : List Message) : Option Nat :=
  extractMaxToolInvocationStep ((messages.getLast?).bind Message.toolInvocations)

/-- The zero-indexed step the next model call would carry: 0 when the last
message has no tool invocations, otherwise its highest step plus one. -/
def nextToolStep (messages : List Message) : Nat :=
  match lastInvocationStep messages with
  | none => 0
  | some s => s + 1

/-- A backend conforming to the protocol's step accounting: every request
cycle leaves a last message whose highest tool-invocation step is exactly the
next step of the submitted list.  This is the shape of the scenario in the
claim — a backend that on every call answers with one more (client-completed)
tool step. -/
def StepAdvancing (B : Backend) (cfg : Config) : Prop :=
  ∀ st msgs,
    lastInvocationStep ((runOneCycle B cfg st msgs).1).messages
      = some (nextToolStep msgs)

/-- A fresh user message, used as concrete input in the witnesses. -/
def userHi : Message :=
  { id := some "u1"
    createdAt := some 0
    role := Role.user
    content := "hi"
    parts := none
    toolInvocations := none }

/-- The session state right after constructing the hook with no initial
messages and empty input. -/
def st0 : ChatState := initialState [] ""

/-- The default configuration: step bound 1, keep-last-message rollback
policy, no `onError` callback. -/
def cfgDefault : Config :=
  { maxSteps := 1, keepLastMessageOnError := true, hasOnError := false }

/-- A configuration with step bound 2. -/
def cfgTwo : Config :=
  { maxSteps := 2, keepLastMessageOnError := true, hasOnError := false }

/-- The default configuration with an `onError` callback installed. -/
def cfgOnError : Config :=
  { maxSteps := 1, keepLastMessageOnError := true, hasOnError := true }

/-- A backend that completes immediately without streaming any event. -/
def idleBackend : Backend := fun _ =>
  { events := [], outcome := CallOutcome.success }

/-- An assistant message carrying one resolved tool invocation at the given
step. -/
def toolResultMessage (step : Nat) : Message :=
  { id := some "a1"
    createdAt := some 1
    role := Role.assistant
    content := ""
    parts := some []
    toolInvocations := some
      [{ toolCallId := "tc1"
         toolName := "lookup"
         args := ""
         state := ToolInvocationState.result
         step := some step
         result := some "42" }] }

/-- A backend that on every call streams one assistant message carrying a
single resolved tool invocation at the next tool step and then completes:
the scenario of a backend that always answers with one more tool call which
the client resolves, driving the auto-continuation loop. -/
def loopBackend : Backend := fun msgs =>
  { events := [{ message := toolResultMessage (nextToolStep msgs)
                 data := []
                 replaceLastMessage := false }]
    outcome := CallOutcome.success }

/-- An assistant message consisting of streamed text. -/
def deltaMessage (content : String) : Message :=
  { id := some "a1"
    createdAt := some 1
    role := Role.assistant
    content := content
    parts := some [MessagePart.text content]
    toolInvocations := none }

/-- A backend whose call merges two text deltas and is then cancelled (the
transport rejects with an `AbortError`). -/
def abortedBackend : Backend := fun _ =>
  { events := [{ message := deltaMessage "H", data := [], replaceLastMessage := false },
               { message := deltaMessage "Hello", data := [], replaceLastMessage := false }]
    outcome := CallOutcome.failure { name := "AbortError", isErrorInstance := true } }

/-- A backend whose call rejects with a proper `Error` instance before any
event. -/
def errorBackend : Backend := fun _ =>
  { events := [], outcome := CallOutcome.failure { name := "TypeError", isErrorInstance := true } }

/-- A backend whose call rejects with a thrown non-`Error` value (for
example `throw "boom"` in JavaScript): it has no `name` property and is not
an `Error` instance. -/
def throwValueBackend : Backend := fun _ =>
  { events := [], outcome := CallOutcome.failure { name := "", isErrorInstance := false } }

/-- A backend whose call streams an assistant message with a completed tool
invocation and is then cancelled: after the abort, the resubmission condition
holds on the merged messages. -/
def abortAfterToolBackend : Backend := fun _ =>
  { events := [{ message := toolResultMessage 0, data := [], replaceLastMessage := false }]
    outcome := CallOutcome.failure { name := "AbortError", isErrorInstance := true } }

/-- An assistant message with one unresolved tool invocation `tc1`. -/
def toolCallMessage : Message :=
  { id := some "a1"
    createdAt := some 1
    role := Role.assistant
    content := ""
    parts := some []
    toolInvocations := some
      [{ toolCallId := "tc1"
         toolName := "lookup"
         args := ""
         state := ToolInvocationState.call
         step := some 0
         result := none }] }

/-- An assistant message with two unresolved tool invocations `tc1` and
`tc2`. -/
def toolCallMessage2 : Message :=
  { id := some "a1"
    createdAt := some 1
    role := Role.assistant
    content := ""
    parts := some []
    toolInvocations := some
      [{ toolCallId := "tc1"
         toolName := "lookup"
         args := ""
         state := ToolInvocationState.call
         step := some 0
         result := none },
       { toolCallId := "tc2"
         toolName := "search"
         args := ""
         state := ToolInvocationState.call
         step := some 0
         result := none }] }

/-- An idle session whose last message is an assistant message with one
pending tool invocation. -/
def stReady : ChatState := { st0 with messages := [userHi, toolCallMessage] }

/-- An idle session whose last message is an assistant message with two
pending tool invocations. -/
def stReady2 : ChatState := { st0 with messages := [userHi, toolCallMessage2] }

/-- A session with a request in flight (status `streaming`), same messages
as `stReady`. -/
def stStreaming : ChatState :=
  { st0 with status := ChatStatus.streaming, messages := [userHi, toolCallMessage] }

/-- An idle session whose last (and only) message is a user message. -/
def stUserLast : ChatState := { st0 with messages := fillMessageParts [userHi] }

/-- An idle session with a non-empty input draft. -/
def stHasInput : ChatState := { st0 with input := "hi" }

theorem foldl_onUpdate_preserves (chatMessages : List Message)
    (existingData : List String) (events : List StreamEvent) (st : ChatState) :
    (events.foldl (onUpdate chatMessages existingData) st).input = st.input
    ∧ (events.foldl (onUpdate chatMessages existingData) st).onErrorCalls = st.onErrorCalls
    ∧ (events.foldl (onUpdate chatMessages existingData) st).error = st.error
    ∧ (events.foldl (onUpdate chatMessages existingData) st).abortActive = st.abortActive := by
  induction events generalizing st with
  | nil => exact ⟨rfl, rfl, rfl, rfl⟩
  | cons e es ih =>
      simpa [List.foldl_cons, onUpdate] using
        ih (onUpdate chatMessages existingData st e)

theorem runOneCycle_input (B : Backend) (cfg : Config) (st : ChatState)
    (reqMessages : List Message) :
    ((runOneCycle B cfg st reqMessages).1).input = st.input := by
  unfold runOneCycle
  cases h : (B (fillMessageParts reqMessages)).outcome with
  | success =>
      simpa [h] using
        (foldl_onUpdate_preserves (fillMessageParts reqMessages) st.streamData
          (B (fillMessageParts reqMessages)).events _).1
  | failure err =>
      by_cases hn : err.name == "AbortError" <;>
        by_cases hk : cfg.keepLastMessageOnError <;>
          simpa [h, hn, hk] using
            (foldl_onUpdate_preserves (fillMessageParts reqMessages) st.streamData
              (B (fillMessageParts reqMessages)).events _).1

theorem runOneCycle_status (B : Backend) (cfg : Config) (st : ChatState)
    (reqMessages : List Message) :
    ((runOneCycle B cfg st reqMessages).1).status = ChatStatus.ready
    ∨ ((runOneCycle B cfg st reqMessages).1).status = ChatStatus.error := by
  unfold runOneCycle
  cases h : (B (fillMessageParts reqMessages)).outcome with
  | success => simp [h]
  | failure err =>
      by_cases hn : err.name == "AbortError" <;>
        by_cases hk : cfg.keepLastMessageOnError <;> simp [h, hn, hk]

theorem triggerRequestFuel_input (B : Backend) (cfg : Config) :
    ∀ (fuel : Nat) (st : ChatState) (reqMessages : List Message),
      ((triggerRequestFuel B cfg fuel st reqMessages).1).input = st.input := by
  intro fuel
  induction fuel with
  | zero => intro st reqMessages; rfl
  | succ fuel ih =>
      intro st reqMessages
      simp only [triggerRequestFuel]
      split
      · exact runOneCycle_input B cfg st reqMessages
      · split
        · exact (ih _ _).trans (runOneCycle_input B cfg st reqMessages)
        · exact runOneCycle_input B cfg st reqMessages

theorem triggerRequestFuel_pos (B : Backend) (cfg : Config) (fuel : Nat)
    (st : ChatState) (reqMessages : List Message) (h : 1 ≤ fuel) :
    1 ≤ (triggerRequestFuel B cfg fuel st reqMessages).2.2 := by
  cases fuel with
  | zero => omega
  | succ fuel =>
      simp only [triggerRequestFuel]
      split
      · exact Nat.le_refl 1
      · split
        · exact Nat.le_add_left 1 _
        · exact Nat.le_refl 1

theorem triggerRequestFuel_ret (B : Backend) (cfg : Config) (fuel : Nat)
    (st : ChatState) (reqMessages : List Message) :
    (triggerRequestFuel B cfg fuel st reqMessages).2.1 = RetVal.nullVal
    ∨ (triggerRequestFuel B cfg fuel st reqMessages).2.1 = RetVal.undefVal := by
  cases fuel with
  | zero => exact Or.inr rfl
  | succ fuel =>
      simp only [triggerRequestFuel]
      split
      · exact Or.inl rfl
      · split
        · exact Or.inr rfl
        · exact Or.inr rfl

theorem triggerRequestFuel_status (B : Backend) (cfg : Config) :
    ∀ (fuel : Nat) (st : ChatState) (reqMessages : List Message), 1 ≤ fuel →
      ((triggerRequestFuel B cfg fuel st reqMessages).1).status = ChatStatus.ready
      ∨ ((triggerRequestFuel B cfg fuel st reqMessages).1).status = ChatStatus.error := by
  intro fuel
  induction fuel with
  | zero => intro st reqMessages h; omega
  | succ fuel ih =>
      intro st reqMessages _
      simp only [triggerRequestFuel]
      split
      · exact runOneCycle_status B cfg st reqMessages
      · split
        · cases fuel with
          | zero => exact runOneCycle_status B cfg st reqMessages
          | succ fuel2 => exact ih _ _ (Nat.succ_le_succ (Nat.zero_le fuel2))
        · exact runOneCycle_status B cfg st reqMessages

theorem lastInvocationStep_fillMessageParts (messages : List Message) :
    lastInvocationStep (fillMessageParts messages) = lastInvocationStep messages := by
  unfold lastInvocationStep fillMessageParts
  rw [List.getLast?_map]
  cases messages.getLast? <;> rfl

theorem nextToolStep_of_lastInvocationStep (messages : List Message) (t : Nat)
    (hstep : lastInvocationStep messages = some t) :
    nextToolStep messages = t + 1 := by
  unfold nextToolStep
  rw [hstep]

theorem shouldResubmitMessages_step_lt (originalMaxToolInvocationStep : Option Nat)
    (originalMessageCount maxSteps : Nat) (messages : List Message) (t : Nat)
    (hstep : lastInvocationStep messages = some t)
    (h : shouldResubmitMessages originalMaxToolInvocationStep originalMessageCount
          maxSteps messages = true) :
    t + 1 < maxSteps := by
  unfold shouldResubmitMessages at h
  unfold lastInvocationStep at hstep
  cases hL : messages.getLast? with
  | none => rw [hL] at h; exact absurd h (by simp)
  | some lastMessage =>
      rw [hL] at h hstep
      simp only [Option.some_bind] at hstep
      simp only [Bool.and_eq_true, decide_eq_true_eq] at h
      have h3 := h.2
      rw [hstep] at h3
      simpa using h3

theorem shouldResubmitMessages_maxSteps_one (originalMaxToolInvocationStep : Option Nat)
    (originalMessageCount : Nat) (messages : List Message) :
    shouldResubmitMessages originalMaxToolInvocationStep originalMessageCount 1 messages
      = false := by
  unfold shouldResubmitMessages
  cases messages.getLast? with
  | none => rfl
  | some lastMessage => simp

theorem triggerRequestFuel_cycles_le_one (B : Backend) (cfg : Config)
    (hms : cfg.maxSteps = 1) (fuel : Nat) (st : ChatState)
    (reqMessages : List Message) :
    (triggerRequestFuel B cfg fuel st reqMessages).2.2 ≤ 1 := by
  cases fuel with
  | zero => simp [triggerRequestFuel]
  | succ fuel =>
      simp only [triggerRequestFuel, hms, shouldResubmitMessages_maxSteps_one]
      split <;> simp

theorem triggerRequestFuel_cycles_le (B : Backend) (cfg : Config)
    (hB : StepAdvancing B cfg) :
    ∀ (fuel : Nat) (st : ChatState) (reqMessages : List Message),
      (triggerRequestFuel B cfg fuel st reqMessages).2.2
        ≤ Nat.max 1 (cfg.maxSteps - nextToolStep reqMessages) := by
  intro fuel
  induction fuel with
  | zero =>
      intro st reqMessages
      exact le_trans (by simp [triggerRequestFuel]) (Nat.le_max_left _ _)
  | succ fuel ih =>
      intro st reqMessages
      simp only [triggerRequestFuel]
      split
      · exact Nat.le_max_left _ _
      · split
        · next h =>
            dsimp only
            have hstep := hB st reqMessages
            have hlt : nextToolStep reqMessages + 1 < cfg.maxSteps :=
              shouldResubmitMessages_step_lt _ _ _ _ _ hstep h
            have hnext := nextToolStep_of_lastInvocationStep _ _ hstep
            have hrec := ih (runOneCycle B cfg st reqMessages).1
              ((runOneCycle B cfg st reqMessages).1).messages
            rw [hnext] at hrec
            have e1 : Nat.max 1 (cfg.maxSteps - (nextToolStep reqMessages + 1))
                = cfg.maxSteps - (nextToolStep reqMessages + 1) :=
              Nat.max_eq_right (by omega)
            have e2 : Nat.max 1 (cfg.maxSteps - nextToolStep reqMessages)
                = cfg.maxSteps - nextToolStep reqMessages :=
              Nat.max_eq_right (by omega)
            rw [e1] at hrec
            rw [e2]
            omega
        · exact Nat.le_max_left _ _

theorem nextToolStep_fillMessageParts (messages : List Message) :
    nextToolStep (fillMessageParts messages) = nextToolStep messages := by
  unfold nextToolStep
  rw [lastInvocationStep_fillMessageParts]

theorem loopBackend_stepAdvancing (cfg : Config) : StepAdvancing loopBackend cfg := by
  intro st msgs
  unfold runOneCycle loopBackend
  simp only [List.foldl_cons, List.foldl_nil]
  unfold lastInvocationStep onUpdate
  simp only [List.getLast?_concat, Option.some_bind]
  simp [toolResultMessage, extractMaxToolInvocationStep, Nat.zero_max,
    nextToolStep_fillMessageParts]

theorem runOneCycle_abort (B : Backend) (cfg : Config) (st : ChatState)
    (reqMessages : List Message) (err : Thrown)
    (hout : (B (fillMessageParts reqMessages)).outcome = CallOutcome.failure err)
    (hname : err.name = "AbortError") :
    (runOneCycle B cfg st reqMessages).2 = true
    ∧ ((runOneCycle B cfg st reqMessages).1).status = ChatStatus.ready
    ∧ ((runOneCycle B cfg st reqMessages).1).error = none
    ∧ ((runOneCycle B cfg st reqMessages).1).onErrorCalls = st.onErrorCalls
    ∧ ((runOneCycle B cfg st reqMessages).1).abortActive = false := by
  refine ⟨?_, ?_, ?_, ?_, ?_⟩ <;>
    simp only [runOneCycle, hout, hname, beq_self_eq_true, if_true]
  · exact ((foldl_onUpdate_preserves _ _ _ _).2.2.1).trans rfl
  · exact ((foldl_onUpdate_preserves _ _ _ _).2.1).trans rfl

theorem runOneCycle_error (B : Backend) (cfg : Config) (st : ChatState)
    (reqMessages : List Message) (err : Thrown)
    (hout : (B (fillMessageParts reqMessages)).outcome = CallOutcome.failure err)
    (hname : err.name ≠ "AbortError") :
    (runOneCycle B cfg st reqMessages).2 = false
    ∧ ((runOneCycle B cfg st reqMessages).1).status = ChatStatus.error
    ∧ ((runOneCycle B cfg st reqMessages).1).error = some err
    ∧ ((runOneCycle B cfg st reqMessages).1).onErrorCalls
        = st.onErrorCalls + (if cfg.hasOnError && err.isErrorInstance then 1 else 0) := by
  have hbeq : (err.name == "AbortError") = false := by
    simpa using hname
  refine ⟨?_, ?_, ?_, ?_⟩ <;>
    cases hk : cfg.keepLastMessageOnError <;>
      simp only [runOneCycle, hout, hbeq, hk, Bool.false_eq_true, if_false, if_true] <;>
        exact congrArg (fun n => n + (if cfg.hasOnError && err.isErrorInstance then 1 else 0))
          (((foldl_onUpdate_preserves _ _ _ _).2.1).trans rfl)

/-- C1: the auto-continuation loop never exceeds the configured step bound.
With the default `maxSteps` of 1, `triggerRequest` never recursively
resubmits (at most one request cycle, for every backend).  For any
`maxSteps` N at least 1 and a step-advancing backend — one whose every call
yields one more resolved tool step, the scenario of a backend that always
returns a tool call for the client to resolve — at most N request cycles
run, and the engine leaves status `ready` or `error`. -/
theorem maxSteps_bounds_auto_continuation (B : Backend) (cfg : Config)
    (st : ChatState) (reqMessages : List Message) (fuel : Nat) :
    (cfg.maxSteps = 1 →
      (triggerRequestFuel B cfg fuel st reqMessages).2.2 ≤ 1)
    ∧ (StepAdvancing B cfg → 1 ≤ cfg.maxSteps →
        (triggerRequestFuel B cfg fuel st reqMessages).2.2 ≤ cfg.maxSteps)
    ∧ (1 ≤ fuel →
        ((triggerRequestFuel B cfg fuel st reqMessages).1).status = ChatStatus.ready
        ∨ ((triggerRequestFuel B cfg fuel st reqMessages).1).status = ChatStatus.error) := by
  refine ⟨fun h => triggerRequestFuel_cycles_le_one B cfg h fuel st reqMessages,
    fun hB hms => ?_,
    triggerRequestFuel_status B cfg fuel st reqMessages⟩
  have hle := triggerRequestFuel_cycles_le B cfg hB fuel st reqMessages
  have hmax : Nat.max 1 (cfg.maxSteps - nextToolStep reqMessages) ≤ cfg.maxSteps :=
    Nat.max_le.mpr ⟨hms, Nat.sub_le _ _⟩
  exact le_trans hle hmax

/-- Witness for C1 at concrete inputs: the loop backend with the default
bound runs one cycle; with bound 2 it runs at most two cycles and ends with
status `ready` or `error`. -/
theorem maxSteps_bounds_auto_continuation_witness :
    ((triggerRequestFuel loopBackend cfgDefault 9 st0 [userHi]).2.2 ≤ 1)
    ∧ ((triggerRequestFuel loopBackend cfgTwo 9 st0 [userHi]).2.2 ≤ 2)
    ∧ (((triggerRequestFuel loopBackend cfgTwo 9 st0 [userHi]).1).status = ChatStatus.ready
        ∨ ((triggerRequestFuel loopBackend cfgTwo 9 st0 [userHi]).1).status
            = ChatStatus.error) :=
  ⟨(maxSteps_bounds_auto_continuation loopBackend cfgDefault st0 [userHi] 9).1 rfl,
   (maxSteps_bounds_auto_continuation loopBackend cfgTwo st0 [userHi] 9).2.1
      (loopBackend_stepAdvancing cfgTwo) (by decide),
   (maxSteps_bounds_auto_continuation loopBackend cfgTwo st0 [userHi] 9).2.2 (by decide)⟩

/-- C2: a request cycle whose transport call rejects with an `AbortError`
finalizes with status `ready`, records no error, never invokes the `onError`
callback, resolves `null`, and runs exactly one cycle — regardless of the
configuration and of how many stream events were merged before the abort. -/
theorem abort_cycle_finalizes_ready (B : Backend) (cfg : Config) (st : ChatState)
    (reqMessages : List Message) (fuel : Nat) (err : Thrown)
    (hout : (B (fillMessageParts reqMessages)).outcome = CallOutcome.failure err)
    (hname : err.name = "AbortError") :
    ((triggerRequestFuel B cfg (fuel + 1) st reqMessages).1).status = ChatStatus.ready
    ∧ ((triggerRequestFuel B cfg (fuel + 1) st reqMessages).1).error = none
    ∧ ((triggerRequestFuel B cfg (fuel + 1) st reqMessages).1).onErrorCalls
        = st.onErrorCalls
    ∧ (triggerRequestFuel B cfg (fuel + 1) st reqMessages).2.1 = RetVal.nullVal
    ∧ (triggerRequestFuel B cfg (fuel + 1) st reqMessages).2.2 = 1 := by
  obtain ⟨hab, hst, herr, honc, _⟩ := runOneCycle_abort B cfg st reqMessages err hout hname
  refine ⟨?_, ?_, ?_, ?_, ?_⟩ <;>
    simp only [triggerRequestFuel, hab, if_true] <;>
      first
        | exact hst
        | exact herr
        | exact honc

/-- Witness for C2: a cancelled call that had already merged two text deltas
leaves status `ready`, no error, no `onError` invocation, resolves `null`. -/
theorem abort_cycle_finalizes_ready_witness :
    ((triggerRequestFuel abortedBackend cfgDefault 3 st0 [userHi]).1).status
        = ChatStatus.ready
    ∧ ((triggerRequestFuel abortedBackend cfgDefault 3 st0 [userHi]).1).error = none
    ∧ ((triggerRequestFuel abortedBackend cfgDefault 3 st0 [userHi]).1).onErrorCalls
        = st0.onErrorCalls
    ∧ (triggerRequestFuel abortedBackend cfgDefault 3 st0 [userHi]).2.1 = RetVal.nullVal
    ∧ (triggerRequestFuel abortedBackend cfgDefault 3 st0 [userHi]).2.2 = 1 :=
  abort_cycle_finalizes_ready abortedBackend cfgDefault st0 [userHi] 2
    { name := "AbortError", isErrorInstance := true } rfl rfl

/-- C3 counterexample: with an `onError` callback configured, a cycle whose
transport call rejects with a thrown non-`Error` value (such as a thrown
string) still sets status `error` and records the value, but never invokes
the callback — refuting the claim that the callback is invoked exactly once
for any thrown value. -/
theorem onError_skipped_for_thrown_value :
    ((runOneCycle throwValueBackend cfgOnError st0 [userHi]).1).status = ChatStatus.error
    ∧ ((runOneCycle throwValueBackend cfgOnError st0 [userHi]).1).error
        = some { name := "", isErrorInstance := false }
    ∧ ((runOneCycle throwValueBackend cfgOnError st0 [userHi]).1).onErrorCalls = 0 := by
  exact ⟨rfl, rfl, rfl⟩

/-- C3 (amended): a request cycle failing with a non-cancellation thrown
value sets status `error` and records the thrown value in the session's
error field; with an `onError` callback configured, the callback is invoked
exactly once for that cycle when the thrown value is an `Error` instance and
not at all when it is not. -/
theorem error_cycle_records_error_and_invokes_onError (B : Backend) (cfg : Config)
    (st : ChatState) (reqMessages : List Message) (err : Thrown)
    (hout : (B (fillMessageParts reqMessages)).outcome = CallOutcome.failure err)
    (hname : err.name ≠ "AbortError") (hcb : cfg.hasOnError = true) :
    ((runOneCycle B cfg st reqMessages).1).status = ChatStatus.error
    ∧ ((runOneCycle B cfg st reqMessages).1).error = some err
    ∧ (err.isErrorInstance = true →
        ((runOneCycle B cfg st reqMessages).1).onErrorCalls = st.onErrorCalls + 1)
    ∧ (err.isErrorInstance = false →
        ((runOneCycle B cfg st reqMessages).1).onErrorCalls = st.onErrorCalls) := by
  obtain ⟨_, hst, herr, honc⟩ := runOneCycle_error B cfg st reqMessages err hout hname
  refine ⟨hst, herr, fun hi => ?_, fun hi => ?_⟩ <;>
    rw [honc, hcb, hi] <;> simp

/-- Witness for C3 (amended): a call rejecting with a `TypeError` instance
sets status `error`, records it, and invokes `onError` exactly once. -/
theorem error_cycle_records_error_and_invokes_onError_witness :
    ((runOneCycle errorBackend cfgOnError st0 [userHi]).1).status = ChatStatus.error
    ∧ ((runOneCycle errorBackend cfgOnError st0 [userHi]).1).error
        = some { name := "TypeError", isErrorInstance := true }
    ∧ ((runOneCycle errorBackend cfgOnError st0 [userHi]).1).onErrorCalls
        = st0.onErrorCalls + 1 := by
  have h := error_cycle_records_error_and_invokes_onError errorBackend cfgOnError st0
    [userHi] { name := "TypeError", isErrorInstance := true } rfl (by decide) rfl
  exact ⟨h.1, h.2.1, h.2.2.1 rfl⟩

/-- C4 counterexample: a cycle cancelled after streaming a completed tool
call returns early.  With step bound 2 the resubmission condition holds on
the merged messages, yet only one request cycle runs — refuting the claim
that the auto-continuation check is performed after every outcome including
cancellation. -/
theorem continuation_check_skipped_on_abort :
    shouldResubmitMessages (lastInvocationStep (fillMessageParts [userHi]))
        (fillMessageParts [userHi]).length cfgTwo.maxSteps
        ((runOneCycle abortAfterToolBackend cfgTwo st0 [userHi]).1).messages = true
    ∧ (triggerRequestFuel abortAfterToolBackend cfgTwo 9 st0 [userHi]).2.2 = 1 := by
  exact ⟨by decide, by decide⟩

/-- C4 (amended): the auto-continuation check runs at the end of every
request cycle that completes or fails with a non-cancellation error — for
those outcomes a further cycle runs exactly when `shouldResubmitMessages`
holds on the resulting message list — while a cancelled cycle returns `null`
immediately without performing the check. -/
theorem continuation_check_after_cycle (B : Backend) (cfg : Config)
    (st : ChatState) (reqMessages : List Message) (fuel : Nat) :
    ((runOneCycle B cfg st reqMessages).2 = true →
      (triggerRequestFuel B cfg (fuel + 2) st reqMessages).2.2 = 1
      ∧ (triggerRequestFuel B cfg (fuel + 2) st reqMessages).2.1 = RetVal.nullVal)
    ∧ ((runOneCycle B cfg st reqMessages).2 = false →
        (2 ≤ (triggerRequestFuel B cfg (fuel + 2) st reqMessages).2.2
          ↔ shouldResubmitMessages
              (lastInvocationStep (fillMessageParts reqMessages))
              (fillMessageParts reqMessages).length cfg.maxSteps
              ((runOneCycle B cfg st reqMessages).1).messages = true)) := by
  constructor
  · intro hab
    constructor <;> simp only [triggerRequestFuel, hab, if_true]
  · intro hab
    simp only [triggerRequestFuel, hab, Bool.false_eq_true, if_false]
    split
    · next h =>
        refine ⟨fun _ => h, fun _ => ?_⟩
        have hpos := triggerRequestFuel_pos B cfg (fuel + 1)
          (runOneCycle B cfg st reqMessages).1
          ((runOneCycle B cfg st reqMessages).1).messages (by omega)
        show 2 ≤ (triggerRequestFuel B cfg (fuel + 1)
          (runOneCycle B cfg st reqMessages).1
          ((runOneCycle B cfg st reqMessages).1).messages).2.2 + 1
        omega
    · next h =>
        exact ⟨fun h2 => absurd (show (2 : Nat) ≤ 1 from h2) (by omega),
          fun hres => absurd hres h⟩

/-- Witness for C4 (amended): at a cancelled call the cycle count is 1 and
the promise resolves `null`; at a completed tool-call response the engine
resubmits exactly when `shouldResubmitMessages` holds. -/
theorem continuation_check_after_cycle_witness :
    ((triggerRequestFuel abortedBackend cfgDefault 4 st0 [userHi]).2.2 = 1
      ∧ (triggerRequestFuel abortedBackend cfgDefault 4 st0 [userHi]).2.1
          = RetVal.nullVal)
    ∧ (2 ≤ (triggerRequestFuel loopBackend cfgTwo 4 st0 [userHi]).2.2
        ↔ shouldResubmitMessages (lastInvocationStep (fillMessageParts [userHi]))
            (fillMessageParts [userHi]).length cfgTwo.maxSteps
            ((runOneCycle loopBackend cfgTwo st0 [userHi]).1).messages = true) :=
  ⟨(continuation_check_after_cycle abortedBackend cfgDefault st0 [userHi] 2).1 (by decide),
   (continuation_check_after_cycle loopBackend cfgTwo st0 [userHi] 2).2 (by decide)⟩

/-- C5: `addToolResult` always publishes the updated message list; it
triggers no request cycle while one is in flight (status `submitted` or
`streaming`); when idle it triggers exactly one new request cycle with the
updated (otherwise unchanged) message list when the last message is an
assistant message whose tool invocations are all resolved, and none when
they are not. -/
theorem addToolResult_trigger_policy (st : ChatState) (toolCallId result : String) :
    ((addToolResult st toolCallId result).1).messages
        = updateToolCallResult st.messages toolCallId result
    ∧ (st.status = ChatStatus.submitted ∨ st.status = ChatStatus.streaming →
        (addToolResult st toolCallId result).2 = none)
    ∧ (st.status ≠ ChatStatus.submitted → st.status ≠ ChatStatus.streaming →
        ∀ lastMessage,
          (updateToolCallResult st.messages toolCallId result).getLast?
              = some lastMessage →
          ((isAssistantMessageWithCompletedToolCalls lastMessage = true →
              (addToolResult st toolCallId result).2
                = some (updateToolCallResult st.messages toolCallId result))
            ∧ (isAssistantMessageWithCompletedToolCalls lastMessage = false →
                (addToolResult st toolCallId result).2 = none))) := by
  refine ⟨?_, ?_, ?_⟩
  · simp only [addToolResult]
    split
    · rfl
    · split
      · rfl
      · split <;> rfl
  · intro hs
    have hc : (st.status == ChatStatus.submitted || st.status == ChatStatus.streaming)
        = true := by
      rcases hs with h | h <;> simp [h]
    simp only [addToolResult, hc, if_true]
  · intro h1 h2 lastMessage hlast
    have hc : (st.status == ChatStatus.submitted || st.status == ChatStatus.streaming)
        = false := by
      simp [h1, h2]
    constructor <;> intro hcall <;>
      simp only [addToolResult, hc, Bool.false_eq_true, if_false, hlast, hcall,
        Bool.true_eq_false, if_true]

/-- Witness for C5: during streaming no request is triggered; when idle,
resolving the only pending invocation triggers exactly one request with the
updated list, and resolving one of two pending invocations triggers none. -/
theorem addToolResult_trigger_policy_witness :
    (addToolResult stStreaming "tc1" "42").2 = none
    ∧ (addToolResult stReady "tc1" "42").2
        = some (updateToolCallResult stReady.messages "tc1" "42")
    ∧ (addToolResult stReady2 "tc1" "42").2 = none :=
  ⟨(addToolResult_trigger_policy stStreaming "tc1" "42").2.1 (Or.inr rfl),
   ((addToolResult_trigger_policy stReady "tc1" "42").2.2 (by decide) (by decide)
      _ rfl).1 (by decide),
   ((addToolResult_trigger_policy stReady2 "tc1" "42").2.2 (by decide) (by decide)
      _ rfl).2 (by decide)⟩

/-- C6: the claim fails on the code.  `triggerRequest` only ever resolves
with `null` (the cancellation branch) or `undefined` (every other path), so
the promise returned by `append` never resolves with the id of the newly
created assistant message — contradicting the operation's own documentation
comment, for every backend, configuration, state and message. -/
theorem append_never_resolves_with_message_id (B : Backend) (cfg : Config)
    (st : ChatState) (message : Message) (genId : String) (now : Nat) (fuel : Nat) :
    (append B cfg st message genId now fuel).2.1 = RetVal.nullVal
    ∨ (append B cfg st message genId now fuel).2.1 = RetVal.undefVal :=
  triggerRequestFuel_ret B cfg fuel st (appendMessage st.messages message genId now)

/-- C7: `reload` resolves `null` without any request on empty history, drops
an assistant last message and resubmits the remaining history, and resubmits
the history unchanged otherwise. -/
theorem reload_regenerates_or_retries (B : Backend) (cfg : Config) (st : ChatState)
    (fuel : Nat) :
    (st.messages = [] → reload B cfg st fuel = (st, RetVal.nullVal, 0))
    ∧ (∀ lastMessage, st.messages.getLast? = some lastMessage →
        (lastMessage.role = Role.assistant →
          reload B cfg st fuel
            = triggerRequestFuel B cfg fuel st st.messages.dropLast)
        ∧ (lastMessage.role ≠ Role.assistant →
          reload B cfg st fuel
            = triggerRequestFuel B cfg fuel st st.messages)) := by
  constructor
  · intro h
    unfold reload
    rw [h]
    rfl
  · intro lastMessage hlast
    constructor <;> intro hrole <;> unfold reload <;> rw [hlast]
    · simp [hrole]
    · have hr : (lastMessage.role == Role.assistant) = false := by
        simpa using hrole
      simp [hr]

/-- Witness for C7: empty history resolves `null`; an assistant last message
is dropped before resubmission; a user last message is resubmitted as is. -/
theorem reload_regenerates_or_retries_witness :
    reload idleBackend cfgDefault st0 3 = (st0, RetVal.nullVal, 0)
    ∧ reload idleBackend cfgDefault stReady 3
        = triggerRequestFuel idleBackend cfgDefault 3 stReady stReady.messages.dropLast
    ∧ reload idleBackend cfgDefault stUserLast 3
        = triggerRequestFuel idleBackend cfgDefault 3 stUserLast stUserLast.messages :=
  ⟨(reload_regenerates_or_retries idleBackend cfgDefault st0 3).1 rfl,
   ((reload_regenerates_or_retries idleBackend cfgDefault stReady 3).2 _ rfl).1 rfl,
   ((reload_regenerates_or_retries idleBackend cfgDefault stUserLast 3).2 _ rfl).2
      (by decide)⟩

/-- C8: every message list exposed to callers has `parts` populated: the
initial messages, every list written through `setMessages`, and every list
submitted through `triggerRequest` pass through the `fillMessageParts`
normalization before publication (the optimistic write is observed directly
on a cycle that streams no event), the normalized lists have `parts` set on
every message, and `append` attaches the derived parts to the message it
creates. -/
theorem parts_always_populated (initialMessages : List Message) (initialInput : String)
    (st : ChatState) (messages : List Message) (cfg : Config)
    (reqMessages : List Message) (message : Message) (genId : String) (now : Nat) :
    (initialState initialMessages initialInput).messages = fillMessageParts initialMessages
    ∧ (setMessages st messages).messages = fillMessageParts messages
    ∧ ((runOneCycle idleBackend cfg st reqMessages).1).messages
        = fillMessageParts reqMessages
    ∧ (fillMessageParts messages).all (fun m => m.parts.isSome) = true
    ∧ (appendMessage st.messages message genId now).getLast?
        = some { message with
            id := some (message.id.getD genId)
            createdAt := some (message.createdAt.getD now)
            parts := some (getMessageParts message) } := by
  refine ⟨rfl, rfl, rfl, ?_, List.getLast?_concat _⟩
  induction messages with
  | nil => rfl
  | cons m ms ih => simp [fillMessageParts] at ih ⊢

/-- C9: a freshly constructed session reads status `ready` with no error,
and the deprecated `isLoading` flag is true exactly when the status is
`submitted` or `streaming`. -/
theorem initial_status_ready_and_isLoading (initialMessages : List Message)
    (initialInput : String) (st : ChatState) :
    (initialState initialMessages initialInput).status = ChatStatus.ready
    ∧ (initialState initialMessages initialInput).error = none
    ∧ (isLoading st = true
        ↔ st.status = ChatStatus.submitted ∨ st.status = ChatStatus.streaming) := by
  refine ⟨rfl, rfl, ?_⟩
  unfold isLoading
  cases h : st.status <;> simp [h]

/-- C10: a `handleSubmit` of a non-empty input leaves the input empty for
every backend, configuration and fuel — including fuel 0, i.e. before the
request has done anything — and `triggerRequest` never modifies the input
draft, so the input stays cleared however the triggered request cycle later
ends. -/
theorem handleSubmit_clears_input (B : Backend) (cfg : Config) (st : ChatState)
    (allowEmptySubmit : Bool) (genId : String) (now : Nat) (fuel : Nat)
    (hne : st.input ≠ "") :
    ((handleSubmit B cfg st allowEmptySubmit genId now fuel).1).input = ""
    ∧ (∀ (st2 : ChatState) (reqMessages : List Message) (fuel2 : Nat),
        ((triggerRequestFuel B cfg fuel2 st2 reqMessages).1).input = st2.input) := by
  constructor
  · have hc : (st.input == "" && !allowEmptySubmit) = false := by
      have : (st.input == "") = false := by simpa using hne
      simp [this]
    simp only [handleSubmit, hc, Bool.false_eq_true, if_false]
    exact (triggerRequestFuel_input B cfg fuel _ _).trans rfl
  · intro st2 reqMessages fuel2
    exact triggerRequestFuel_input B cfg fuel2 st2 reqMessages

/-- Witness for C10: submitting the draft "hi" through a failing backend
leaves the input empty. -/
theorem handleSubmit_clears_input_witness :
    ((handleSubmit errorBackend cfgDefault stHasInput false "u2" 5 3).1).input = "" :=
  (handleSubmit_clears_input errorBackend cfgDefault stHasInput false "u2" 5 3
    (by decide)).1

end UseChat
